import Mathlib

/-!
Verification development for the RFIDarchMonitor data-collection
frequency-control subsystem (Python backend).

Shallow embedding of:
  * `backend/models/collection_config.py` — `CollectionConfig` model,
    `get_performance_impact`, `update_config`, `pause_collection`,
    `resume_collection`, `reset_to_default`, `to_api_dict`;
  * `backend/models/base.py` — `BaseModel.save` / `_insert` / `_update`
    persistence semantics over a list-of-rows store;
  * `backend/services/collection_frequency_service.py` —
    `CollectionFrequencyService` operations, including the exact scope of
    its single non-reentrant `threading.Lock`;
  * `backend/services/collection_scheduler.py` — tick error bookkeeping
    (`_collect_sensor_data` / `_scan_rfid_devices`) and `update_intervals`.

Modelling conventions:
  * Python values that may flow into the config fields are embedded as
    `PyVal` (int / bool / str).  Python's `isinstance(x, int)` is true for
    booleans (`bool` is a subclass of `int`, `True == 1`), which `PyVal.isInstInt`
    reflects.
  * Python float arithmetic in `get_performance_impact` and
    `validate_numeric_range` is modelled over `ℚ`; for the magnitudes involved
    (denominators ≤ 300, thresholds 10/20/100) the comparisons agree with
    IEEE doubles.
  * Wall-clock timestamps are logical `ℕ` ticks.
  * The database is a `Store` (list of rows plus an id counter); a raw-SQL
    failure during one call is modelled by the `persistOk : Bool` parameter.
  * `threading.Lock` is non-reentrant: acquiring it again from the same
    thread blocks forever.  A service operation therefore either returns
    (`SvcOut.ret`) or blocks forever (`SvcOut.hang`); `hang` carries the
    state as already committed (cache/store mutations performed before the
    blocking acquire), which stays visible to the database and other threads.
-/

/-- Embedded Python value as it can appear in config payload fields. -/
inductive PyVal
  | vInt (n : ℤ)
  | vBool (b : Bool)
  | vStr (s : String)
deriving DecidableEq

/-- Python `isinstance(x, int)`: true for ints and for bools
(`bool` subclasses `int`). -/
def PyVal.isInstInt : PyVal → Bool
  | .vInt _ => true
  | .vBool _ => true
  | .vStr _ => false

/-- Python `isinstance(x, bool)`. -/
def PyVal.isInstBool : PyVal → Bool
  | .vBool _ => true
  | _ => false

/-- Numeric value used in comparisons (`True == 1`, `False == 0`);
only meaningful when `isInstInt`. -/
def PyVal.toZ : PyVal → ℤ
  | .vInt n => n
  | .vBool b => if b then 1 else 0
  | .vStr _ => 0

/-- Python truthiness of a config field value. -/
def PyVal.truthy : PyVal → Bool
  | .vInt n => decide (n ≠ 0)
  | .vBool b => b
  | .vStr s => decide (s ≠ "")

/-- Python `float(x)` as used by `validate_numeric_range`; numeric strings
never reach this point through the service paths, so they map to `none`
(the `except (ValueError, TypeError)` branch). -/
def PyVal.toFloat : PyVal → Option ℚ
  | .vInt n => some (n : ℚ)
  | .vBool b => some (if b then 1 else 0)
  | .vStr _ => none

/-- Result of `CollectionConfig.get_performance_impact`. -/
structure PerfImpact where
  sensorLoad : ℚ
  rfidLoad : ℚ
  totalLoad : ℚ
  estimatedCpuUsage : ℚ
  estimatedMemoryMB : ℚ
  performanceLevel : String
  warning : Option String
deriving DecidableEq

/-- `CollectionConfig.get_performance_impact`
(`backend/models/collection_config.py`, lines 139-171), as a function of
the two interval values. -/
def get_performance_impact (sensor_interval rfid_interval : ℚ) : PerfImpact :=
  let sensor_load := 60 / sensor_interval
  let rfid_load := 60 / rfid_interval
  let estimated_cpu_usage := (sensor_load * (1/2) + rfid_load * 1) / 100
  let estimated_memory_mb := sensor_load * (1/10) + rfid_load * (1/5)
  let total_load := sensor_load + rfid_load
  if total_load > 20 then
    { sensorLoad := sensor_load, rfidLoad := rfid_load, totalLoad := total_load
      estimatedCpuUsage := min estimated_cpu_usage 100
      estimatedMemoryMB := estimated_memory_mb
      performanceLevel := "high"
      warning := some "采集频率较高，可能影响系统性能" }
  else if total_load > 10 then
    { sensorLoad := sensor_load, rfidLoad := rfid_load, totalLoad := total_load
      estimatedCpuUsage := min estimated_cpu_usage 100
      estimatedMemoryMB := estimated_memory_mb
      performanceLevel := "medium"
      warning := some "采集频率适中，注意监控系统性能" }
  else
    { sensorLoad := sensor_load, rfidLoad := rfid_load, totalLoad := total_load
      estimatedCpuUsage := min estimated_cpu_usage 100
      estimatedMemoryMB := estimated_memory_mb
      performanceLevel := "low"
      warning := none }

/-- C5: the performance-impact estimate is the exact deterministic function
of the two intervals — `sensor_load = 60/s`, `rfid_load = 60/r`,
`total_load` their sum, `estimated_cpu_usage = min(100, (sensor_load*0.5 +
rfid_load*1.0)/100)`, `estimated_memory_mb = sensor_load*0.1 +
rfid_load*0.2`, level `high` iff `total_load > 20`, `medium` iff
`10 < total_load ≤ 20`, else `low`, with a warning exactly when the level
is `high` or `medium`; and for `sensor_interval = 30, rfid_interval = 10`
it yields loads `2`, `6`, total `8` and level `low`. -/
theorem perf_impact_exact :
    (∀ s r : ℚ,
      (get_performance_impact s r).sensorLoad = 60 / s ∧
      (get_performance_impact s r).rfidLoad = 60 / r ∧
      (get_performance_impact s r).totalLoad = 60 / s + 60 / r ∧
      (get_performance_impact s r).estimatedCpuUsage
        = min (((60 / s) * (1/2) + (60 / r) * 1) / 100) 100 ∧
      (get_performance_impact s r).estimatedMemoryMB
        = (60 / s) * (1/10) + (60 / r) * (1/5) ∧
      ((get_performance_impact s r).performanceLevel = "high"
        ↔ 60 / s + 60 / r > 20) ∧
      ((get_performance_impact s r).performanceLevel = "medium"
        ↔ (10 < 60 / s + 60 / r ∧ 60 / s + 60 / r ≤ 20)) ∧
      ((get_performance_impact s r).performanceLevel = "low"
        ↔ 60 / s + 60 / r ≤ 10) ∧
      ((get_performance_impact s r).warning.isSome = true
        ↔ ((get_performance_impact s r).performanceLevel = "high" ∨
           (get_performance_impact s r).performanceLevel = "medium"))) ∧
    (get_performance_impact 30 10).sensorLoad = 2 ∧
    (get_performance_impact 30 10).rfidLoad = 6 ∧
    (get_performance_impact 30 10).totalLoad = 8 ∧
    (get_performance_impact 30 10).performanceLevel = "low" := by
  constructor
  · intro s r
    unfold get_performance_impact
    dsimp only
    split_ifs with h1 h2
    · refine ⟨rfl, rfl, rfl, rfl, rfl, ?_, ?_, ?_, ?_⟩
      · exact iff_of_true rfl h1
      · exact iff_of_false (by simp) (fun h => absurd h1 (not_lt.mpr h.2))
      · exact iff_of_false (by simp) (fun h => by linarith)
      · exact iff_of_true rfl (Or.inl rfl)
    · refine ⟨rfl, rfl, rfl, rfl, rfl, ?_, ?_, ?_, ?_⟩
      · exact iff_of_false (by simp) h1
      · exact iff_of_true rfl ⟨h2, not_lt.mp h1⟩
      · exact iff_of_false (by simp) (fun h => by linarith)
      · exact iff_of_true rfl (Or.inr rfl)
    · refine ⟨rfl, rfl, rfl, rfl, rfl, ?_, ?_, ?_, ?_⟩
      · exact iff_of_false (by simp) h1
      · exact iff_of_false (by simp) (fun h => h2 h.1)
      · exact iff_of_true rfl (not_lt.mp h2)
      · refine iff_of_false (by simp) ?_
        rintro (h | h) <;> simp at h
  · refine ⟨?_, ?_, ?_, ?_⟩ <;> norm_num [get_performance_impact]

/-! ## Persistence layer: `collection_configs` rows and `BaseModel` save semantics -/

/-- Range constants from `CollectionConfig` (`collection_config.py`, lines 21-28). -/
def DEFAULT_SENSOR_INTERVAL : ℤ := 30

/-- Default RFID scan interval (seconds). -/
def DEFAULT_RFID_INTERVAL : ℤ := 10

/-- Minimum sensor interval (seconds). -/
def MIN_SENSOR_INTERVAL : ℤ := 1

/-- Maximum sensor interval (seconds). -/
def MAX_SENSOR_INTERVAL : ℤ := 300

/-- Minimum RFID interval (seconds). -/
def MIN_RFID_INTERVAL : ℤ := 1

/-- Maximum RFID interval (seconds). -/
def MAX_RFID_INTERVAL : ℤ := 60

/-- A persisted `collection_configs` row. `updatedAt`/`createdAt` are logical
timestamps; `updatedAt = none` models SQL NULL (the `create` path never writes
an `updated_at` column). -/
structure Row where
  id : ℕ
  sensor : PyVal
  rfid : PyVal
  isPaused : PyVal
  updatedBy : String
  createdAt : Option ℕ
  updatedAt : Option ℕ
deriving DecidableEq

/-- The `collection_configs` table plus the autoincrement counter. -/
structure Store where
  rows : List Row
  nextId : ℕ
deriving DecidableEq

/-- In-memory `CollectionConfig` instance (`self.data` of the model object). -/
structure CfgMem where
  id : Option ℕ
  sensor : PyVal
  rfid : PyVal
  isPaused : PyVal
  updatedBy : String
  createdAt : Option ℕ
  updatedAt : Option ℕ
deriving DecidableEq

/-- Serialize the in-memory object into a row with identity `i`. -/
def CfgMem.toRow (c : CfgMem) (i : ℕ) : Row :=
  ⟨i, c.sensor, c.rfid, c.isPaused, c.updatedBy, c.createdAt, c.updatedAt⟩

/-- Materialize a fetched row as a model instance. -/
def Row.toCfg (r : Row) : CfgMem :=
  ⟨some r.id, r.sensor, r.rfid, r.isPaused, r.updatedBy, r.createdAt, r.updatedAt⟩

/-- `UPDATE collection_configs SET ... WHERE id = i`: `BaseModel._update` only
writes the changed fields, but since the stored row agrees with the object's
`_original_data` along every service path, that is extensionally the same as
replacing the whole row (and when nothing changed, `_update` skips the write,
which replacing with an identical row also models). -/
def Store.updateRow (st : Store) (i : ℕ) (row : Row) : Store :=
  { st with rows := st.rows.map (fun r => if r.id = i then row else r) }

/-- Errors that can escape a save: a `ValidationError` with its message, or a
database exception from `execute_query` (message abstracted). -/
inductive SErr
  | vErr (msg : String)
  | dbErr
deriving DecidableEq

/-- Rendering of `str(e)` used when an error is interpolated into a payload. -/
def errText : SErr → String
  | .vErr m => m
  | .dbErr => "数据库错误"

/-- `CollectionConfig.validate` (`collection_config.py`, lines 44-61):
required fields, numeric ranges via `float()`, `is_paused` must be `bool`,
`updated_by` at most 100 characters.  Returns the first `ValidationError`
message, or `none`. -/
def cfgValidate (c : CfgMem) : Option String :=
  if c.sensor = .vStr "" ∧ c.rfid = .vStr "" then
    some "缺少必填字段: sensor_interval, rfid_interval"
  else if c.sensor = .vStr "" then some "缺少必填字段: sensor_interval"
  else if c.rfid = .vStr "" then some "缺少必填字段: rfid_interval"
  else
    match c.sensor.toFloat with
    | none => some "字段 sensor_interval 必须是数值类型"
    | some qs =>
      if qs < (MIN_SENSOR_INTERVAL : ℚ) ∨ qs > (MAX_SENSOR_INTERVAL : ℚ) then
        some "字段 sensor_interval 值超出范围 (1 - 300)"
      else
        match c.rfid.toFloat with
        | none => some "字段 rfid_interval 必须是数值类型"
        | some qr =>
          if qr < (MIN_RFID_INTERVAL : ℚ) ∨ qr > (MAX_RFID_INTERVAL : ℚ) then
            some "字段 rfid_interval 值超出范围 (1 - 60)"
          else if !c.isPaused.isInstBool then
            some "is_paused 必须是布尔值"
          else if c.updatedBy.length > 100 then
            some "updated_by 字段长度不能超过100字符"
          else
            none

/-- `BaseModel._insert`: assign the autoincrement id, default `created_at`
to now when absent (no `updated_at` is defaulted). -/
def cfgInsert (c : CfgMem) (store : Store) (now : ℕ) (persistOk : Bool) :
    Except SErr (CfgMem × Store) :=
  if persistOk then
    let c' := { c with id := some store.nextId, createdAt := some (c.createdAt.getD now) }
    .ok (c', ⟨store.rows ++ [c'.toRow store.nextId], store.nextId + 1⟩)
  else .error .dbErr

/-- `CollectionConfig.save` = `validate()` then `BaseModel.save`
(`base.py`, lines 142-210): a record that already has a truthy primary key is
UPDATEd in place; otherwise it is INSERTed. -/
def cfgSave (c : CfgMem) (store : Store) (now : ℕ) (persistOk : Bool) :
    Except SErr (CfgMem × Store) :=
  match cfgValidate c with
  | some m => .error (.vErr m)
  | none =>
    match c.id with
    | some i =>
      if i = 0 then cfgInsert c store now persistOk
      else if persistOk then .ok (c, store.updateRow i (c.toRow i))
      else .error .dbErr
    | none => cfgInsert c store now persistOk

/-- Field mutation performed by `CollectionConfig.update_config`
(`collection_config.py`, lines 106-114) before the save: present arguments
overwrite the corresponding fields, `updated_by` and `updated_at` always. -/
def ccMutate (c : CfgMem) (sensor rfid paused : Option PyVal)
    (updated_by : String) (now : ℕ) : CfgMem :=
  { c with
    sensor := sensor.getD c.sensor
    rfid := rfid.getD c.rfid
    isPaused := paused.getD c.isPaused
    updatedBy := updated_by
    updatedAt := some now }

namespace CollectionConfig

/-- `CollectionConfig.update_config` (`collection_config.py`, lines 102-120):
mutate the object in place, then save.  The first component is the mutated
object — in Python the caller's reference observes those mutations even when
the save raises (the method logs and re-raises). -/
def update_config (c : CfgMem) (sensor rfid paused : Option PyVal)
    (updated_by : String) (now : ℕ) (store : Store) (persistOk : Bool) :
    CfgMem × Except SErr (CfgMem × Store) :=
  let c' := ccMutate c sensor rfid paused updated_by now
  (c', cfgSave c' store now persistOk)

/-- `CollectionConfig.pause_collection`. -/
def pause_collection (c : CfgMem) (updated_by : String) (now : ℕ)
    (store : Store) (persistOk : Bool) : CfgMem × Except SErr (CfgMem × Store) :=
  update_config c none none (some (.vBool true)) updated_by now store persistOk

/-- `CollectionConfig.resume_collection`. -/
def resume_collection (c : CfgMem) (updated_by : String) (now : ℕ)
    (store : Store) (persistOk : Bool) : CfgMem × Except SErr (CfgMem × Store) :=
  update_config c none none (some (.vBool false)) updated_by now store persistOk

/-- `CollectionConfig.reset_to_default`. -/
def reset_to_default (c : CfgMem) (updated_by : String) (now : ℕ)
    (store : Store) (persistOk : Bool) : CfgMem × Except SErr (CfgMem × Store) :=
  update_config c (some (.vInt DEFAULT_SENSOR_INTERVAL))
    (some (.vInt DEFAULT_RFID_INTERVAL)) (some (.vBool false))
    updated_by now store persistOk

end CollectionConfig

/-- `updated_at DESC` comparison with SQL NULLs smallest. -/
def updGT : Option ℕ → Option ℕ → Bool
  | some a, some b => a > b
  | some _, none => true
  | none, _ => false

/-- `SELECT * FROM collection_configs ORDER BY updated_at DESC LIMIT 1`
(`CollectionConfig.get_current_config`): the row with the greatest
`updated_at`, first-encountered winning ties. -/
def Store.currentRow (store : Store) : Option Row :=
  store.rows.foldl
    (fun acc r =>
      match acc with
      | none => some r
      | some a => if updGT r.updatedAt a.updatedAt then some r else some a)
    none

/-- `CollectionConfig.get_or_create_default` (`collection_config.py`,
lines 87-100): return the current row, or INSERT the built-in default
(sensor 30, rfid 10, unpaused). -/
def get_or_create_default (store : Store) (now : ℕ) : CfgMem × Store :=
  match store.currentRow with
  | some r => (r.toCfg, store)
  | none =>
    let row : Row := ⟨store.nextId, .vInt DEFAULT_SENSOR_INTERVAL,
      .vInt DEFAULT_RFID_INTERVAL, .vBool false, "system", some now, none⟩
    (row.toCfg, ⟨store.rows ++ [row], store.nextId + 1⟩)

/-! ## `CollectionFrequencyService`: the frequency controller -/

/-- API-shaped config snapshot produced by `CollectionConfig.to_api_dict`
(`collection_config.py`, lines 193-204). -/
structure ApiDict where
  id : Option ℕ
  sensorInterval : PyVal
  rfidInterval : PyVal
  isPaused : PyVal
  updatedBy : String
  createdAt : Option ℕ
  updatedAt : Option ℕ
  performanceImpact : PerfImpact
deriving DecidableEq

/-- `CollectionConfig.to_api_dict`; the embedded performance impact divides
60 by the stored interval values (booleans promote to 1/0 as in Python). -/
def CfgMem.toApiDict (c : CfgMem) : ApiDict :=
  { id := c.id
    sensorInterval := c.sensor
    rfidInterval := c.rfid
    isPaused := c.isPaused
    updatedBy := c.updatedBy
    createdAt := c.createdAt
    updatedAt := c.updatedAt
    performanceImpact :=
      get_performance_impact (c.sensor.toFloat.getD 0) (c.rfid.toFloat.getD 0) }

/-- A `collection_status` row as written by `_record_status_change` (only the
fields the claims observe). -/
structure StatusRow where
  isRunning : Bool
  timestamp : ℕ
deriving DecidableEq

/-- In-memory state owned by `CollectionFrequencyService`:
the cached current config and the persistent tables it writes
(`system_logs` writes are modelled as external effects). -/
structure SState where
  cache : Option CfgMem
  store : Store
  statusRows : List StatusRow
deriving DecidableEq

/-- Outcome of a service call in a single-threaded execution: either the
operation returns a payload, or it blocks forever on a second acquisition of
the service's non-reentrant `threading.Lock`.  `hang` carries the state whose
mutations were already committed before the blocking acquire. -/
inductive SvcOut (ρ σ : Type)
  | ret (r : ρ) (s : σ)
  | hang (s : σ)
deriving DecidableEq

/-- Whether the call blocked forever (never returned to its caller). -/
def SvcOut.isHang {ρ σ : Type} : SvcOut ρ σ → Bool
  | .hang _ => true
  | .ret _ _ => false

/-- The state as left behind by the call (final on `ret`, at the blocking
point on `hang`). -/
def SvcOut.stateOf {ρ σ : Type} : SvcOut ρ σ → σ
  | .hang s => s
  | .ret _ s => s

/-- A hung call never produced a return payload. -/
theorem SvcOut.isHang_ne_ret {ρ σ : Type} {o : SvcOut ρ σ}
    (h : o.isHang = true) (r : ρ) (s : σ) : o ≠ .ret r s := by
  intro he
  subst he
  simp [SvcOut.isHang] at h

/-- The JSON body handed to `update_config` / `validate_config`:
`none` models both an absent key and an explicit `null`
(the code always tests `... is not None` after `.get`). -/
structure CfgInput where
  sensorInterval : Option PyVal
  rfidInterval : Option PyVal
  isPaused : Option PyVal
deriving DecidableEq

/-- One interval check from `CollectionFrequencyService.update_config`
(lines 82-88): present, and either not an `int` or out of `[lo, hi]`. -/
def badInterval (v : Option PyVal) (lo hi : ℤ) : Bool :=
  match v with
  | none => false
  | some v => !v.isInstInt || v.toZ < lo || v.toZ > hi

/-- The `isPaused` check (line 90): present and not a `bool`. -/
def badBool (v : Option PyVal) : Bool :=
  match v with
  | none => false
  | some v => !v.isInstBool

/-- Validation message of `update_config` for the sensor interval. -/
def msgSensorRange : String := "传感器采集间隔必须在 1-300 秒之间"

/-- Validation message of `update_config` for the RFID interval. -/
def msgRfidRange : String := "RFID扫描间隔必须在 1-60 秒之间"

/-- Validation message of `update_config` for the paused flag. -/
def msgPausedBool : String := "暂停状态必须是布尔值"

/-- The fail-fast validation prologue of
`CollectionFrequencyService.update_config` (lines 76-91), which raises the
first applicable `ValidationError` before the lock is taken. -/
def svcValidate (inp : CfgInput) : Option String :=
  if badInterval inp.sensorInterval MIN_SENSOR_INTERVAL MAX_SENSOR_INTERVAL then
    some msgSensorRange
  else if badInterval inp.rfidInterval MIN_RFID_INTERVAL MAX_RFID_INTERVAL then
    some msgRfidRange
  else if badBool inp.isPaused then
    some msgPausedBool
  else
    none

/-- Payload of `update_config` / `reset_to_default`. -/
structure UpdResult where
  success : Bool
  message : String
  config : ApiDict
deriving DecidableEq

/-- Payload of `pause_collection` / `resume_collection`. -/
structure PauseResult where
  success : Bool
  message : String
  status : String
deriving DecidableEq

namespace CollectionFrequencyService

/-- `CollectionFrequencyService.get_current_config` (lines 43-72): under the
lock, return the cached config's API dict.  If the cache were empty it would
call `_load_current_config`, which re-acquires the already-held lock — a
deadlock, not an exception, so the `except` fallback is unreachable. -/
def get_current_config (st : SState) : SvcOut ApiDict SState :=
  match st.cache with
  | some c => .ret c.toApiDict st
  | none => .hang st

/-- `CollectionFrequencyService.update_config` (lines 74-148).
Control flow of the source:
  * the validation prologue raises before the lock; the `except
    ValidationError` handler builds the failure payload from
    `get_current_config()` (the lock is free again by then);
  * under the lock, `CollectionConfig.update_config` mutates the cached
    object in place and saves; if the save raises, the handler returns a
    failure payload but the cache keeps the mutated object;
  * on a successful save the service logs the change and then calls
    `_notify_config_change_callbacks`, which re-acquires the still-held
    non-reentrant lock: the call blocks forever. -/
def update_config (st : SState) (inp : CfgInput) (updated_by : String)
    (now : ℕ) (persistOk : Bool) : SvcOut UpdResult SState :=
  match svcValidate inp with
  | some m =>
    match st.cache with
    | some c => .ret ⟨false, m, c.toApiDict⟩ st
    | none => .hang st
  | none =>
    match st.cache with
    | none => .hang st
    | some c =>
      match CollectionConfig.update_config c inp.sensorInterval
        inp.rfidInterval inp.isPaused updated_by now st.store persistOk with
      | (_, .ok (c'', store')) =>
        .hang { st with cache := some c'', store := store' }
      | (c', .error (.vErr m)) =>
        .ret ⟨false, m, c'.toApiDict⟩ { st with cache := some c' }
      | (c', .error .dbErr) =>
        .ret ⟨false, "配置更新失败: " ++ errText .dbErr, c'.toApiDict⟩
          { st with cache := some c' }

/-- `CollectionFrequencyService.pause_collection` (lines 150-193): no-op
success when already paused; otherwise persist `is_paused=True`, record a
status row, then block forever in `_notify_status_change_callbacks`.  Any
exception from the save yields the generic failure payload, with the cache
keeping the mutated object. -/
def pause_collection (st : SState) (updated_by : String) (now : ℕ)
    (persistOk : Bool) : SvcOut PauseResult SState :=
  match st.cache with
  | none => .hang st
  | some c =>
    if c.isPaused.truthy then
      .ret ⟨true, "数据采集已处于暂停状态", "paused"⟩ st
    else
      match CollectionConfig.pause_collection c updated_by now st.store persistOk with
      | (_, .ok (c'', store')) =>
        .hang { cache := some c'', store := store',
                statusRows := st.statusRows ++ [⟨false, now⟩] }
      | (c', .error e) =>
        .ret ⟨false, "暂停失败: " ++ errText e, "error"⟩ { st with cache := some c' }

/-- `CollectionFrequencyService.resume_collection` (lines 195-238),
symmetric to `pause_collection`. -/
def resume_collection (st : SState) (updated_by : String) (now : ℕ)
    (persistOk : Bool) : SvcOut PauseResult SState :=
  match st.cache with
  | none => .hang st
  | some c =>
    if !c.isPaused.truthy then
      .ret ⟨true, "数据采集已在运行中", "running"⟩ st
    else
      match CollectionConfig.resume_collection c updated_by now st.store persistOk with
      | (_, .ok (c'', store')) =>
        .hang { cache := some c'', store := store',
                statusRows := st.statusRows ++ [⟨true, now⟩] }
      | (c', .error e) =>
        .ret ⟨false, "恢复失败: " ++ errText e, "error"⟩ { st with cache := some c' }

/-- `CollectionFrequencyService.reset_to_default` (lines 240-281): restore
the built-in defaults as a save of the cached object; on success it blocks
forever in `_notify_config_change_callbacks`; its only `except` clause is
generic, so both validation and database errors render `重置失败`. -/
def reset_to_default (st : SState) (updated_by : String) (now : ℕ)
    (persistOk : Bool) : SvcOut UpdResult SState :=
  match st.cache with
  | none => .hang st
  | some c =>
    match CollectionConfig.reset_to_default c updated_by now st.store persistOk with
    | (_, .ok (c'', store')) =>
      .hang { st with cache := some c'', store := store' }
    | (c', .error e) =>
      .ret ⟨false, "重置失败: " ++ errText e, c'.toApiDict⟩ { st with cache := some c' }

end CollectionFrequencyService

/-! ## `CollectionFrequencyService.validate_config` -/

/-- Payload of `validate_config`. -/
structure ValResult where
  valid : Bool
  errors : List String
  warnings : List String
  performanceImpact : Option PerfImpact
deriving DecidableEq

/-- The sensor-interval `if/elif` chain of `validate_config`
(lines 290-299): errors for non-int / too small / too large, then a soft
warning for values below 10. -/
def checkSensorField : Option PyVal → List String × List String
  | none => ([], [])
  | some v =>
    if !v.isInstInt then (["传感器采集间隔必须是整数"], [])
    else if v.toZ < MIN_SENSOR_INTERVAL then (["传感器采集间隔不能小于 1 秒"], [])
    else if v.toZ > MAX_SENSOR_INTERVAL then (["传感器采集间隔不能大于 300 秒"], [])
    else if v.toZ < 10 then ([], ["传感器采集间隔过短可能影响系统性能"])
    else ([], [])

/-- The RFID-interval `if/elif` chain of `validate_config` (lines 302-311),
with the soft warning below 5. -/
def checkRfidField : Option PyVal → List String × List String
  | none => ([], [])
  | some v =>
    if !v.isInstInt then (["RFID扫描间隔必须是整数"], [])
    else if v.toZ < MIN_RFID_INTERVAL then (["RFID扫描间隔不能小于 1 秒"], [])
    else if v.toZ > MAX_RFID_INTERVAL then (["RFID扫描间隔不能大于 60 秒"], [])
    else if v.toZ < 5 then ([], ["RFID扫描间隔过短可能影响系统性能"])
    else ([], [])

/-- Python truthiness of an optional payload field (`if sensor_interval and
rfid_interval:`): absent or falsy value fails the test. -/
def inputTruthy : Option PyVal → Bool
  | none => false
  | some v => v.truthy

/-- `CollectionFrequencyService.validate_config` (lines 283-345): collect all
violations instead of failing fast, add soft warnings, and compute the
performance impact when both intervals are present and truthy.  Dividing 60
by a non-numeric value would raise `TypeError`, landing in the generic
`except` branch (`验证失败`). -/
def validate_config (inp : CfgInput) : ValResult :=
  let sres := checkSensorField inp.sensorInterval
  let rres := checkRfidField inp.rfidInterval
  let perrs : List String :=
    if badBool inp.isPaused then ["暂停状态必须是布尔值"] else []
  if inputTruthy inp.sensorInterval && inputTruthy inp.rfidInterval then
    match (inp.sensorInterval.bind PyVal.toFloat), (inp.rfidInterval.bind PyVal.toFloat) with
    | some qs, some qr =>
      let impact := get_performance_impact qs qr
      let pwarn : List String :=
        if impact.performanceLevel = "high" then
          [impact.warning.getD "采集频率较高，可能影响系统性能"]
        else []
      let errors := sres.1 ++ rres.1 ++ perrs
      ⟨errors.isEmpty, errors, sres.2 ++ rres.2 ++ pwarn, some impact⟩
    | _, _ => ⟨false, ["验证失败: TypeError"], [], none⟩
  else
    let errors := sres.1 ++ rres.1 ++ perrs
    ⟨errors.isEmpty, errors, sres.2 ++ rres.2, none⟩

/-! ## `CollectionScheduler`: tick error bookkeeping and `update_intervals` -/

/-- One entry of the scheduler's rolling `_collection_errors` list. -/
structure CollErr where
  type : String
  message : String
  timestamp : ℕ
deriving DecidableEq

/-- An apscheduler interval job: its trigger period and the time it was last
(re)added — re-adding a job restarts its interval from that moment. -/
structure SchedJob where
  period : PyVal
  scheduledAt : ℕ
deriving DecidableEq

/-- In-memory state owned by `CollectionScheduler`. -/
structure SchedState where
  is_running : Bool
  sensor_last_collection : Option ℕ
  rfid_last_collection : Option ℕ
  collection_errors : List CollErr
  sensorJob : Option SchedJob
  rfidJob : Option SchedJob
deriving DecidableEq

/-- `CollectionScheduler._collect_sensor_data` (lines 299-343): one sensor
tick.  `failMsg = none` models the whole batch completing (readings persisted
to `environment_data`, an external effect here): the last-collection time is
set and every queued `"sensor"` error is cleared.  `failMsg = some m` models
an exception anywhere in the batch: exactly one `"sensor"` error entry is
appended and nothing else changes. -/
def collect_sensor_data (st : SchedState) (failMsg : Option String)
    (now : ℕ) : SchedState :=
  match failMsg with
  | none =>
    { st with
      sensor_last_collection := some now
      collection_errors :=
        st.collection_errors.filter (fun e => !(e.type == "sensor")) }
  | some m =>
    { st with collection_errors := st.collection_errors ++ [⟨"sensor", m, now⟩] }

/-- `CollectionScheduler._scan_rfid_devices` (lines 345-379): one RFID tick,
symmetric to the sensor tick (tag-location updates are external effects). -/
def scan_rfid_devices (st : SchedState) (failMsg : Option String)
    (now : ℕ) : SchedState :=
  match failMsg with
  | none =>
    { st with
      rfid_last_collection := some now
      collection_errors :=
        st.collection_errors.filter (fun e => !(e.type == "rfid")) }
  | some m =>
    { st with collection_errors := st.collection_errors ++ [⟨"rfid", m, now⟩] }

/-- `CollectionScheduler._schedule_collection_jobs` (lines 254-279): add both
interval jobs at the configured periods, starting their intervals now. -/
def schedule_collection_jobs (st : SchedState) (cfg : ApiDict) (now : ℕ) :
    SchedState :=
  { st with
    sensorJob := some ⟨cfg.sensorInterval, now⟩
    rfidJob := some ⟨cfg.rfidInterval, now⟩ }

/-- `CollectionScheduler._reschedule_collection_jobs` (lines 281-297): remove
BOTH existing jobs, then re-add both — each job's interval restarts from now,
whether or not its period changed. -/
def reschedule_collection_jobs (st : SchedState) (cfg : ApiDict) (now : ℕ) :
    SchedState :=
  schedule_collection_jobs { st with sensorJob := none, rfidJob := none } cfg now

/-- Payload of `CollectionScheduler.update_intervals`; the source returns the
frequency service's payload verbatim on delegation failure (no `status` key)
and its own shape otherwise, which the optional fields reflect. -/
structure SchedUpdResult where
  success : Bool
  message : String
  status : Option String
  config : Option ApiDict
deriving DecidableEq

/-- `CollectionScheduler.update_intervals` (lines 156-207): fail when not
running; otherwise read the current config, delegate present intervals to
`CollectionFrequencyService.update_config`, propagate its failure, and on
success reschedule both jobs.  The delegation inherits the frequency
service's outcome, including blocking forever. -/
def update_intervals (sch : SchedState) (svc : SState)
    (sensor_interval rfid_interval : Option ℤ) (now : ℕ) (persistOk : Bool) :
    SvcOut SchedUpdResult (SchedState × SState) :=
  if !sch.is_running then
    .ret ⟨false, "数据采集未运行，无法更新间隔", some "stopped", none⟩ (sch, svc)
  else
    match CollectionFrequencyService.get_current_config svc with
    | .hang svc' => .hang (sch, svc')
    | .ret cfg svc' =>
      if sensor_interval.isNone && rfid_interval.isNone then
        .ret ⟨true, "无需更新", some "running", some cfg⟩ (sch, svc')
      else
        let inp : CfgInput :=
          ⟨sensor_interval.map PyVal.vInt, rfid_interval.map PyVal.vInt, none⟩
        match CollectionFrequencyService.update_config svc' inp "scheduler"
          now persistOk with
        | .hang svc'' => .hang (sch, svc'')
        | .ret r svc'' =>
          if !r.success then
            .ret ⟨false, r.message, none, some r.config⟩ (sch, svc'')
          else
            let sch' := reschedule_collection_jobs sch r.config now
            .ret ⟨true, "采集间隔更新成功", some "running", some r.config⟩
              (sch', svc'')

/-! ## Concrete fixtures -/

/-- Empty `collection_configs` table. -/
def emptyStore : Store := ⟨[], 1⟩

/-- The cached config right after the service `__init__` ran
`_load_current_config` against an empty database at time 0
(`get_or_create_default` inserts the unpaused 30/10 default). -/
def initCfg : CfgMem := (get_or_create_default emptyStore 0).1

/-- The database after that default insert. -/
def initStore : Store := (get_or_create_default emptyStore 0).2

/-- Freshly initialized `CollectionFrequencyService` state. -/
def initSState : SState := ⟨some initCfg, initStore, []⟩

/-- The same service state with the cached config paused (as left by an
earlier persisted pause). -/
def pausedCfg : CfgMem := { initCfg with isPaused := .vBool true }

/-- Service state whose cached config is paused. -/
def pausedSState : SState := ⟨some pausedCfg, initStore, []⟩

/-- The return payload of a call, when it returned at all. -/
def SvcOut.retPayload {ρ σ : Type} : SvcOut ρ σ → Option ρ
  | .ret r _ => some r
  | .hang _ => none

/-- Run one model-level `CollectionConfig.update_config` setting only the
sensor interval, keeping the prior store if the save failed (the error
branch is unreachable for the inputs used in the concrete runs below). -/
def updateStep (p : CfgMem × Store) (v : ℤ) (updated_by : String) (now : ℕ) :
    CfgMem × Store :=
  match CollectionConfig.update_config p.1 (some (.vInt v)) none none
    updated_by now p.2 true with
  | (_, .ok q) => q
  | (c', .error _) => (c', p.2)

/-! ## Claims -/

/-- C1, counterexample: starting from an empty table,
`get_or_create_default` inserts one row, and two subsequent successful
`update_config` calls with distinct valid intervals (60 then 90) leave ONE
persisted row — not two (and not three): `BaseModel.save` UPDATEs the
existing row in place, so no history of superseded versions exists. -/
theorem update_config_versioning_cex :
    ((updateStep (updateStep (get_or_create_default ⟨[], 1⟩ 0) 60 "user1" 1)
        90 "user2" 2).2.rows.length = 1)
    ∧ ¬((updateStep (updateStep (get_or_create_default ⟨[], 1⟩ 0) 60 "user1" 1)
        90 "user2" 2).2.rows.length = 2)
    ∧ ((updateStep (updateStep (get_or_create_default ⟨[], 1⟩ 0) 60 "user1" 1)
        90 "user2" 2).2.rows.map Row.sensor = [.vInt 90]) := by
  decide

/-- C1 (amended): a successful `update_config` on a configuration that is
already persisted (truthy id `i`) UPDATEs that row in place: the store keeps
the same number of rows, every other row is untouched, and the row `i` now
holds the mutated configuration (so the single surviving row — also the one
with the latest `updated_at` — is the last write). -/
theorem update_config_in_place (c : CfgMem) (store : Store) (i : ℕ)
    (sensor rfid paused : Option PyVal) (b : String) (now : ℕ)
    (hid : c.id = some i) (hi : i ≠ 0)
    (hval : cfgValidate (ccMutate c sensor rfid paused b now) = none) :
    CollectionConfig.update_config c sensor rfid paused b now store true
      = (ccMutate c sensor rfid paused b now,
         .ok (ccMutate c sensor rfid paused b now,
              store.updateRow i ((ccMutate c sensor rfid paused b now).toRow i)))
    ∧ (store.updateRow i ((ccMutate c sensor rfid paused b now).toRow i)).rows.length
        = store.rows.length
    ∧ ∀ r, r ∈ store.rows → r.id ≠ i →
        r ∈ (store.updateRow i ((ccMutate c sensor rfid paused b now).toRow i)).rows := by
  have hid' : (ccMutate c sensor rfid paused b now).id = some i := by
    simp [ccMutate, hid]
  refine ⟨?_, ?_, ?_⟩
  · unfold CollectionConfig.update_config cfgSave
    dsimp only
    rw [hval, hid']
    simp [hi]
  · simp [Store.updateRow]
  · intro r hr hne
    refine List.mem_map.mpr ⟨r, hr, ?_⟩
    simp [hne]

/-- C1, witness for `update_config_in_place` at the freshly created default
row (id 1), updating the sensor interval to 60. -/
theorem update_config_in_place_witness :
    initCfg.id = some 1 ∧ (1 : ℕ) ≠ 0
    ∧ cfgValidate (ccMutate initCfg (some (.vInt 60)) none none "user1" 1) = none
    ∧ (initStore.updateRow 1
        ((ccMutate initCfg (some (.vInt 60)) none none "user1" 1).toRow 1)).rows.length
        = initStore.rows.length :=
  ⟨by decide, by decide, by decide,
    (update_config_in_place initCfg initStore 1 (some (.vInt 60)) none none
      "user1" 1 (by decide) (by decide) (by decide)).2.1⟩

/-- Helper for C2: once the mutated object passes `validate()`, a save with a
failing database raises the database error on every `BaseModel.save` branch. -/
theorem cfgSave_persist_fail (c : CfgMem) (store : Store) (now : ℕ)
    (hval : cfgValidate c = none) :
    cfgSave c store now false = .error .dbErr := by
  unfold cfgSave
  rw [hval]
  cases hid : c.id with
  | none => simp [cfgInsert]
  | some i =>
    by_cases hi : i = 0 <;> simp [hi, cfgInsert]

/-- C2, counterexample: on a freshly initialized service (cached sensor
interval 30), an `update_config` whose persistence step fails returns a
failure payload, but the in-memory cache now holds the attempted value 65 —
the subsequent `get_current_config` does NOT return the pre-call snapshot. -/
theorem persist_failure_cache_cex :
    ((CollectionFrequencyService.update_config initSState
        ⟨some (.vInt 65), none, none⟩ "u" 1 false).retPayload.map
          UpdResult.success = some false)
    ∧ initSState.cache.map CfgMem.sensor = some (.vInt 30)
    ∧ ((CollectionFrequencyService.update_config initSState
        ⟨some (.vInt 65), none, none⟩ "u" 1 false).stateOf.cache.map
          CfgMem.sensor = some (.vInt 65))
    ∧ ((CollectionFrequencyService.get_current_config
        (CollectionFrequencyService.update_config initSState
          ⟨some (.vInt 65), none, none⟩ "u" 1 false).stateOf).retPayload.map
          ApiDict.sensorInterval = some (.vInt 65)) := by
  refine ⟨by decide, by decide, by decide, ?_⟩
  simp [CollectionFrequencyService.get_current_config,
    show (CollectionFrequencyService.update_config initSState
      ⟨some (.vInt 65), none, none⟩ "u" 1 false).stateOf.cache
      = some (ccMutate initCfg (some (.vInt 65)) none none "u" 1) from by decide,
    SvcOut.retPayload, CfgMem.toApiDict]
  decide

/-- C2 (amended): when the persistence step fails, `update_config` does
return a failure payload — but the cached configuration has already been
mutated in place with the attempted values (fields are assigned before
`save()`), so the resulting state carries the mutated object and a subsequent
`get_current_config` reports the attempted sensor interval, not the
pre-call snapshot. -/
theorem persist_failure_mutates_cache (st : SState) (c : CfgMem) (s : ℤ)
    (b : String) (now : ℕ)
    (hc : st.cache = some c) (hs1 : 1 ≤ s) (hs2 : s ≤ 300)
    (hval : cfgValidate (ccMutate c (some (.vInt s)) none none b now) = none) :
    CollectionFrequencyService.update_config st ⟨some (.vInt s), none, none⟩
        b now false
      = .ret ⟨false, "配置更新失败: " ++ errText .dbErr,
              (ccMutate c (some (.vInt s)) none none b now).toApiDict⟩
          { st with cache := some (ccMutate c (some (.vInt s)) none none b now) }
    ∧ (ccMutate c (some (.vInt s)) none none b now).sensor = .vInt s := by
  have hv : svcValidate ⟨some (.vInt s), none, none⟩ = none := by
    simp [svcValidate, badInterval, badBool, PyVal.isInstInt, PyVal.toZ,
      MIN_SENSOR_INTERVAL, MAX_SENSOR_INTERVAL, not_lt.mpr hs1, not_lt.mpr hs2]
  refine ⟨?_, by simp [ccMutate]⟩
  unfold CollectionFrequencyService.update_config
  rw [hv, hc]
  unfold CollectionConfig.update_config
  dsimp only
  rw [cfgSave_persist_fail _ _ _ hval]

/-- C2, witness for `persist_failure_mutates_cache` on the fresh service
state with attempted sensor interval 65. -/
theorem persist_failure_mutates_cache_witness :
    initSState.cache = some initCfg ∧ (1 : ℤ) ≤ 65 ∧ (65 : ℤ) ≤ 300
    ∧ cfgValidate (ccMutate initCfg (some (.vInt 65)) none none "u" 1) = none
    ∧ (ccMutate initCfg (some (.vInt 65)) none none "u" 1).sensor = .vInt 65 :=
  ⟨by decide, by decide, by decide, by decide,
    (persist_failure_mutates_cache initSState initCfg 65 "u" 1 rfl
      (by decide) (by decide) (by decide)).2⟩

/-- C3: for the valid input `{sensorInterval: 60, rfidInterval: 20,
isPaused: false}` on a fresh service, `update_config` never returns at all —
after persisting the new values (the committed row shows 60/20) it blocks
forever re-acquiring its own non-reentrant lock inside
`_notify_config_change_callbacks` — so it does not return `success=true`
and no caller can observe the promised `get_current_config` result. -/
theorem valid_update_never_returns :
    ((CollectionFrequencyService.update_config initSState
        ⟨some (.vInt 60), some (.vInt 20), some (.vBool false)⟩
        "test_user" 1 true).isHang = true)
    ∧ ((CollectionFrequencyService.update_config initSState
        ⟨some (.vInt 60), some (.vInt 20), some (.vBool false)⟩
        "test_user" 1 true).retPayload = none)
    ∧ ((CollectionFrequencyService.update_config initSState
        ⟨some (.vInt 60), some (.vInt 20), some (.vBool false)⟩
        "test_user" 1 true).stateOf.store.rows.map Row.sensor = [.vInt 60]) := by
  decide

/-- C4: an `update_config` input whose sensor interval is present and not an
`int` in `[1,300]`, or whose RFID interval is present and not an `int` in
`[1,60]`, or whose `isPaused` is present and not a `bool`, makes the call
return `success=false` with the message of the violated rule (the messages
spell out the interval bounds), applies nothing, and leaves the service
state — hence any subsequent `get_current_config` — exactly as before. -/
theorem invalid_update_rejected (st : SState) (c : CfgMem) (inp : CfgInput)
    (b : String) (now : ℕ) (persistOk : Bool)
    (hc : st.cache = some c)
    (hbad : badInterval inp.sensorInterval MIN_SENSOR_INTERVAL MAX_SENSOR_INTERVAL = true
      ∨ badInterval inp.rfidInterval MIN_RFID_INTERVAL MAX_RFID_INTERVAL = true
      ∨ badBool inp.isPaused = true) :
    ∃ m, svcValidate inp = some m
      ∧ m ∈ [msgSensorRange, msgRfidRange, msgPausedBool]
      ∧ CollectionFrequencyService.update_config st inp b now persistOk
          = .ret ⟨false, m, c.toApiDict⟩ st := by
  have hv : ∃ m, svcValidate inp = some m
      ∧ m ∈ [msgSensorRange, msgRfidRange, msgPausedBool] := by
    unfold svcValidate
    rcases hbad with h | h | h
    · exact ⟨msgSensorRange, by simp [h], by simp⟩
    · by_cases h1 : badInterval inp.sensorInterval MIN_SENSOR_INTERVAL
        MAX_SENSOR_INTERVAL = true
      · exact ⟨msgSensorRange, by simp [h1], by simp⟩
      · exact ⟨msgRfidRange, by simp [h1, h], by simp⟩
    · by_cases h1 : badInterval inp.sensorInterval MIN_SENSOR_INTERVAL
        MAX_SENSOR_INTERVAL = true
      · exact ⟨msgSensorRange, by simp [h1], by simp⟩
      · by_cases h2 : badInterval inp.rfidInterval MIN_RFID_INTERVAL
          MAX_RFID_INTERVAL = true
        · exact ⟨msgRfidRange, by simp [h1, h2], by simp⟩
        · exact ⟨msgPausedBool, by simp [h1, h2, h], by simp⟩
  obtain ⟨m, hm, hmem⟩ := hv
  refine ⟨m, hm, hmem, ?_⟩
  unfold CollectionFrequencyService.update_config
  rw [hm, hc]

/-- C4, witness for `invalid_update_rejected`: the out-of-range input
`{sensorInterval: 0}` on the fresh service. -/
theorem invalid_update_rejected_witness :
    initSState.cache = some initCfg
    ∧ badInterval (some (.vInt 0)) MIN_SENSOR_INTERVAL MAX_SENSOR_INTERVAL = true
    ∧ ∃ m, svcValidate ⟨some (.vInt 0), none, none⟩ = some m
      ∧ m ∈ [msgSensorRange, msgRfidRange, msgPausedBool]
      ∧ CollectionFrequencyService.update_config initSState
          ⟨some (.vInt 0), none, none⟩ "test_user" 3 true
          = .ret ⟨false, m, initCfg.toApiDict⟩ initSState :=
  ⟨rfl, by decide,
    invalid_update_rejected initSState initCfg ⟨some (.vInt 0), none, none⟩
      "test_user" 3 true rfl (Or.inl (by decide))⟩

/-- Scheduler state with both jobs live (periods 30/10 started at time 0)
and an RFID tick already recorded. -/
def runningSched : SchedState :=
  ⟨true, some 4, some 5, [], some ⟨.vInt 30, 0⟩, some ⟨.vInt 10, 0⟩⟩

/-- Scheduler state before any start. -/
def stoppedSched : SchedState := ⟨false, none, none, [], none, none⟩

/-- C6: `update_intervals` does return `success=false` with status
`"stopped"` when the scheduler is not running; but when it IS running, a
sensor-only update never returns at all — the delegated
`CollectionFrequencyService.update_config` blocks forever on its own lock —
and at the blocking point the scheduler state is untouched (`is_running`
and `rfid_last_collection` kept, but also no job was rescheduled, so the
promised sensor-period change never takes effect either). -/
theorem update_intervals_behavior :
    update_intervals stoppedSched initSState (some 60) none 7 true
      = .ret ⟨false, "数据采集未运行，无法更新间隔", some "stopped", none⟩
          (stoppedSched, initSState)
    ∧ (update_intervals runningSched initSState (some 60) none 7 true).isHang = true
    ∧ (update_intervals runningSched initSState (some 60) none 7 true).stateOf.1
        = runningSched := by
  refine ⟨by decide, by decide, by decide⟩

/-- C7: the scheduler's rolling error list — a failing sensor (resp. RFID)
tick appends exactly one entry of type `"sensor"` (resp. `"rfid"`) with its
message and timestamp, and a successful tick of a type removes every entry
of that same type before the tick completes. -/
theorem tick_error_bookkeeping :
    (∀ st m now, collect_sensor_data st (some m) now
        = { st with collection_errors := st.collection_errors ++ [⟨"sensor", m, now⟩] })
    ∧ (∀ st now, ((collect_sensor_data st none now).collection_errors.all
          (fun e => !(e.type == "sensor"))) = true)
    ∧ (∀ st m now, scan_rfid_devices st (some m) now
        = { st with collection_errors := st.collection_errors ++ [⟨"rfid", m, now⟩] })
    ∧ (∀ st now, ((scan_rfid_devices st none now).collection_errors.all
          (fun e => !(e.type == "rfid"))) = true) := by
  refine ⟨fun st m now => rfl, fun st now => ?_, fun st m now => rfl,
    fun st now => ?_⟩ <;>
  · rw [List.all_eq_true]
    intro e he
    exact (List.mem_filter.mp he).2

/-- C8: on a fresh (unpaused) service, `pause_collection` persists the pause
and then never returns (it blocks forever notifying status callbacks while
holding its own lock), so the pause→resume round trip cannot complete; the
idempotent halves do hold — pausing an already-paused config and resuming an
already-running config return no-op successes leaving the state (hence the
persisted versions, and with no notification attempted) unchanged. -/
theorem pause_resume_roundtrip_behavior :
    (CollectionFrequencyService.pause_collection initSState "test_user" 1 true).isHang
      = true
    ∧ CollectionFrequencyService.pause_collection pausedSState "u" 2 true
        = .ret ⟨true, "数据采集已处于暂停状态", "paused"⟩ pausedSState
    ∧ CollectionFrequencyService.resume_collection initSState "u" 3 true
        = .ret ⟨true, "数据采集已在运行中", "running"⟩ initSState := by
  refine ⟨by decide, by decide, by decide⟩

/-- C9: every mutating operation of the controller that reaches its
notification step deadlocks instead of completing: with a successfully
persisting store, `update_config` (valid input), `pause_collection` (from
unpaused), `resume_collection` (from paused) and `reset_to_default` all
block forever re-acquiring the controller's own non-reentrant mutex inside
`_notify_config_change_callbacks` / `_notify_status_change_callbacks` — so
no mutating operation that notifies callbacks ever returns, and no
serialized audit order of completed updates can be observed. -/
theorem mutations_deadlock_on_notify :
    (CollectionFrequencyService.update_config initSState
        ⟨some (.vInt 45), none, none⟩ "worker" 1 true).isHang = true
    ∧ (CollectionFrequencyService.pause_collection initSState "a" 2 true).isHang
        = true
    ∧ (CollectionFrequencyService.resume_collection pausedSState "a" 3 true).isHang
        = true
    ∧ (CollectionFrequencyService.reset_to_default initSState "a" 4 true).isHang
        = true := by
  refine ⟨by decide, by decide, by decide, by decide⟩

/-- C10, counterexample: for the input `{sensorInterval: True}`,
`update_config` passes validation and persists, but then blocks forever on
its own lock — it never returns, so it does not return `success=true` as
the claim states. -/
theorem bool_update_never_returns_cex :
    ((CollectionFrequencyService.update_config initSState
        ⟨some (.vBool true), none, none⟩ "u" 1 true).isHang = true)
    ∧ ((CollectionFrequencyService.update_config initSState
        ⟨some (.vBool true), none, none⟩ "u" 1 true).retPayload = none) := by
  refine ⟨by decide, by decide⟩

/-- C10 (amended): a Python boolean is accepted wherever an integer interval
is required — `{sensorInterval: True}` raises no validation error
(`isinstance(True, int)` holds and `True == 1 ∈ [1,300]`), and the mutation
step stores `True` as the cached and persisted sensor interval before the
call blocks forever in its notification step; `validate_config` likewise
reports `valid=true` with no errors for boolean interval values. -/
theorem bool_passes_int_validation :
    svcValidate ⟨some (.vBool true), none, none⟩ = none
    ∧ ((CollectionFrequencyService.update_config initSState
        ⟨some (.vBool true), none, none⟩ "u" 1 true).stateOf.cache.map
          CfgMem.sensor = some (.vBool true))
    ∧ ((CollectionFrequencyService.update_config initSState
        ⟨some (.vBool true), none, none⟩ "u" 1 true).stateOf.store.rows.map
          Row.sensor = [.vBool true])
    ∧ (validate_config ⟨some (.vBool true), some (.vBool true), none⟩).valid = true
    ∧ (validate_config ⟨some (.vBool true), some (.vBool true), none⟩).errors = [] := by
  refine ⟨by decide, by decide, by decide, by decide, by decide⟩
